import Mathlib

/-!
Shallow embedding of the two AWS Lambda handlers of this repository:
the document Upload Handler (src/unnamed/part_000, an `upload-lambda`
module) and the Chat Handler (src/api/lambda-functions/chat-lambda.js).

External collaborators (S3, DynamoDB, SQS, the Azure search and
generation HTTP services) and the JS runtime builtins `JSON.parse`,
`JSON.stringify`, `Date.now`, `Math.random` are modelled as an
environment record supplied to each invocation: the per-call outcome of
every external call is a field of the environment, and each attempted
call is recorded in an effect trace that the handler returns next to its
response.  Multipart/body parsing is performed by library code upstream
of the handlers, so the model starts from the parsed request.
-/

namespace RagApp

/-- JSON values, as produced by the runtime's JSON.parse. -/
inductive JVal where
  | str (s : String)
  | num (n : Int)
  | bool (b : Bool)
  | null
  | arr (elems : List JVal)
  | obj (fields : List (String × JVal))
deriving BEq, Repr

/-- JS truthiness of a JSON value (NaN and undefined do not occur here:
an absent property is an `Option.none` at its use site). -/
def jsTruthy : JVal → Bool
  | .str s => !(s = "")
  | .num n => !(n = 0)
  | .bool b => b
  | .null => false
  | .arr _ => true
  | .obj _ => true

/-- Decimal digit character, `digitChar d` for d < 10. -/
def digitChar (d : Nat) : Char := Char.ofNat (48 + d)

/-- Decimal digit expansion with a structural fuel argument (the fuel
only bounds the recursion depth; `n + 1` units always suffice since a
number has at most as many digits as its value has units). -/
def decimalCharsFuel : Nat → Nat → List Char
  | 0, _ => []
  | fuel + 1, n =>
    if n < 10 then [digitChar n]
    else decimalCharsFuel fuel (n / 10) ++ [digitChar (n % 10)]

/-- Decimal representation of a natural number, as JS template-literal
interpolation of a number produces it. -/
def decimalChars (n : Nat) : List Char := decimalCharsFuel (n + 1) n

/-- Decimal string of a natural number. -/
def natStr (n : Nat) : String := String.mk (decimalChars n)

/-- Base-36 digit character, lower case, as Number.prototype.toString(36)
produces it. -/
def base36Char (d : Fin 36) : Char :=
  if d.val < 10 then Char.ofNat (48 + d.val) else Char.ofNat (97 + (d.val - 10))

/-- Model of `Math.random().toString(36)`: the draw is represented by the
list of base-36 digits of its fractional expansion (empty for the draw 0;
JS prints no trailing zero digits and, for radix 36, no exponent). -/
def randToString36 (digits : List (Fin 36)) : String :=
  if digits.isEmpty then "0" else "0." ++ String.mk (digits.map base36Char)

/-- JS String.prototype.substring(a, b) for a ≤ b (clamps to the string
length). -/
def jsSubstring (s : String) (a b : Nat) : String :=
  String.mk ((s.data.drop a).take (b - a))

/-- The 0-to-8-character random id suffix `Math.random().toString(36).substring(2, 10)`. -/
def genIdSuffix (digits : List (Fin 36)) : String :=
  jsSubstring (randToString36 digits) 2 10

/-- upload-lambda `generateDocumentId`. -/
def generateDocumentId (nowMs : Nat) (digits : List (Fin 36)) : String :=
  "doc_" ++ natStr nowMs ++ "_" ++ genIdSuffix digits

/-- chat-lambda `generateConversationId`. -/
def generateConversationId (nowMs : Nat) (digits : List (Fin 36)) : String :=
  "conv_" ++ natStr nowMs ++ "_" ++ genIdSuffix digits

/-- JS String.prototype.split with separator "." on the character list of
a string; the result is always non-empty. -/
def splitOnDot : List Char → List (List Char)
  | [] => [[]]
  | c :: cs =>
    match splitOnDot cs with
    | [] => [[c]]
    | h :: t => if c = '.' then [] :: h :: t else (c :: h) :: t

/-- upload-lambda extension computation `filename.split('.').pop().toLowerCase()`
(ASCII lower-casing; the filenames of interest are ASCII). -/
def fileExtension (filename : String) : String :=
  String.mk (((splitOnDot filename.data).getLastD []).map Char.toLower)

/-! ## Upload Handler (src/unnamed/part_000) -/

/-- The upload-lambda `config` object. -/
structure UploadConfig where
  bucketName : String
  processingQueue : String
  maxFileSize : Nat
  dynamoTable : String
  allowedTypes : List String

/-- The upload-lambda `config` with every environment variable unset. -/
def defaultUploadConfig : UploadConfig where
  bucketName := "ragapp-documents"
  processingQueue := ""
  maxFileSize := 25 * 1024 * 1024
  dynamoTable := "ragapp-documents"
  allowedTypes :=
    ["application/pdf",
     "application/vnd.openxmlformats-officedocument.wordprocessingml.document",
     "text/plain"]

/-- One parsed multipart file part (content length measured in characters,
standing for the byte length of the JS Buffer). -/
structure UploadFile where
  filename : String
  contentType : String
  content : String
deriving BEq, Repr

/-- upload-lambda `isValidFileType`. -/
def isValidFileType (cfg : UploadConfig) (file : UploadFile) : Bool :=
  if cfg.allowedTypes.contains file.contentType then true
  else (["pdf", "docx", "txt"] : List String).contains (fileExtension file.filename)

/-- upload-lambda `getFileType`. -/
def getFileType (file : UploadFile) : String :=
  let ext := fileExtension file.filename
  if ext = "pdf" then "pdf"
  else if ext = "docx" ∨ ext = "doc" then "docx"
  else "txt"

/-- The S3 key built in `processFile`: the template literal
`${userId}/${documentId}/${file.filename}`. -/
def mkS3Key (userId documentId filename : String) : String :=
  userId ++ "/" ++ documentId ++ "/" ++ filename

/-- The DynamoDB document record written by `processFile`. -/
structure DocumentRecord where
  id : String
  userId : String
  filename : String
  type : String
  size : Nat
  title : JVal
  uploaded : String
  status : String
  s3Key : String
  metadata : List (String × JVal)
deriving BEq, Repr

/-- The SQS work item message body. -/
structure WorkItem where
  documentId : String
  userId : String
  s3Key : String
  fileType : String
  timestamp : String
deriving BEq, Repr

/-- One attempted external call of the upload pipeline (recorded whether or
not the call succeeds). -/
inductive UploadEffect where
  | s3Put (bucket key body contentType : String) (meta : List (String × String))
  | dynamoPut (table : String) (item : DocumentRecord)
  | sqsSend (queueUrl : String) (message : WorkItem)
deriving BEq, Repr

/-- Per-invocation environment of the upload handler: clock, random draw,
the two ISO timestamps taken during `processFile`, the runtime JSON
builtins, and the outcome of each AWS call (`Except.error` carrying the
thrown error message). -/
structure UploadEnv where
  nowMs : Nat
  randDigits : List (Fin 36)
  isoUploaded : String
  isoQueued : String
  parseJson : String → Option JVal
  stringifyJson : JVal → String
  s3Result : Except String Unit
  dynamoResult : Except String Unit
  sqsResult : Except String Unit

/-- Response body of the upload handler (the `doc` constructor carries the
client-facing subset of the document record returned on 201). -/
inductive UploadBody where
  | err (error : String) (details : Option String)
  | doc (id filename ftype : String) (size : Nat) (title : JVal) (uploaded status : String)
deriving BEq, Repr

/-- upload-lambda `createResponse` output (the constant CORS headers are
omitted from the model). -/
structure UploadResponse where
  statusCode : Nat
  body : UploadBody
deriving BEq, Repr

/-- `metadata.title || file.filename`: JS falsy-or. -/
def jsOrElse (v : Option JVal) (fallback : JVal) : JVal :=
  match v with
  | some x => if jsTruthy x then x else fallback
  | none => fallback

/-- `Object.assign({}, parsed)`: the own enumerable properties of the
parsed JSON value (objects give their fields, arrays and strings their
indexed elements, primitives nothing). -/
def assignFields : JVal → List (String × JVal)
  | .obj fs => fs
  | .arr es => es.enum.map (fun p => (natStr p.1, p.2))
  | .str s => s.data.enum.map (fun p => (natStr p.1, JVal.str (String.mk [p.2])))
  | _ => []

/-- upload-lambda `processFile`: S3 upload, DynamoDB record write, SQS
enqueue, each attempted only if the previous call succeeded; a thrown
error propagates to the handler as `Except.error`. -/
def processFile (cfg : UploadConfig) (env : UploadEnv) (userId : String)
    (file : UploadFile) (metadata : List (String × JVal)) :
    Except String UploadBody × List UploadEffect :=
  let documentId := generateDocumentId env.nowMs env.randDigits
  let fileType := getFileType file
  let s3Key := mkS3Key userId documentId file.filename
  let s3Meta : List (String × String) :=
    [("userId", userId), ("documentId", documentId), ("originalName", file.filename)] ++
      metadata.map (fun kv =>
        (kv.1, match kv.2 with
               | JVal.str s => s
               | v => env.stringifyJson v))
  let eff1 := [UploadEffect.s3Put cfg.bucketName s3Key file.content file.contentType s3Meta]
  match env.s3Result with
  | .error e => (.error e, eff1)
  | .ok _ =>
    let document : DocumentRecord :=
      { id := documentId
        userId := userId
        filename := file.filename
        type := fileType
        size := file.content.length
        title := jsOrElse (metadata.lookup "title") (JVal.str file.filename)
        uploaded := env.isoUploaded
        status := "processing"
        s3Key := s3Key
        metadata := metadata }
    let eff2 := eff1 ++ [UploadEffect.dynamoPut cfg.dynamoTable document]
    match env.dynamoResult with
    | .error e => (.error e, eff2)
    | .ok _ =>
      let eff3 := eff2 ++ [UploadEffect.sqsSend cfg.processingQueue
        { documentId := documentId, userId := userId, s3Key := s3Key,
          fileType := fileType, timestamp := env.isoQueued }]
      match env.sqsResult with
      | .error e => (.error e, eff3)
      | .ok _ =>
        (.ok (UploadBody.doc document.id document.filename document.type document.size
          document.title document.uploaded document.status), eff3)

/-- Parsed multipart request reaching the upload handler: the authorizer
claims `sub` (absent claims collapse to an absent sub via JS optional
chaining), the parsed file parts and the raw `metadata` form field. -/
structure UploadRequest where
  claimsSub : Option String
  files : List UploadFile
  metadataField : Option String

/-- upload-lambda `exports.handler` on a successfully parsed multipart
event, paired with the trace of attempted external calls. -/
def uploadHandler (cfg : UploadConfig) (env : UploadEnv) (req : UploadRequest) :
    UploadResponse × List UploadEffect :=
  match req.claimsSub with
  | none => ({ statusCode := 401, body := .err "Unauthorized" none }, [])
  | some userId =>
    match req.files with
    | [] => ({ statusCode := 400, body := .err "No file uploaded" none }, [])
    | file :: _ =>
      if file.content.length > cfg.maxFileSize then
        ({ statusCode := 413, body := .err "File too large, maximum size is 25MB" none }, [])
      else if !isValidFileType cfg file then
        ({ statusCode := 400,
           body := .err "Invalid file type, supported formats: PDF, DOCX, TXT" none }, [])
      else
        let metadata : List (String × JVal) :=
          match req.metadataField with
          | none => []
          | some m =>
            if m = "" then []
            else match env.parseJson m with
                 | some v => assignFields v
                 | none => []
        match processFile cfg env userId file metadata with
        | (.ok body, effs) => ({ statusCode := 201, body := body }, effs)
        | (.error e, effs) =>
          ({ statusCode := 500, body := .err "Internal server error" (some e) }, effs)

/-! ## Chat Handler (src/api/lambda-functions/chat-lambda.js) -/

/-- The chat-lambda `config` fields the model uses (the Azure endpoint
and key strings only parameterize the outbound URLs). -/
structure ChatConfig where
  dynamoTable : String

/-- One conversation turn `{role, content}`. -/
structure Turn where
  role : String
  content : String
deriving BEq, Repr

/-- One retrieved snippet as mapped from an Azure AI Search hit in
`searchRelevantDocuments` (`pageNumber` is `none` when the hit carries no
page number). -/
structure ChatDoc where
  id : String
  content : String
  title : String
  source : String
  pageNumber : Option Nat
deriving BEq, Repr

/-- One source citation entry built in `generateResponse`. -/
structure Citation where
  documentId : String
  title : String
  location : String
  excerpt : String
deriving BEq, Repr

/-- One attempted external call of the chat pipeline. -/
inductive ChatEffect where
  | searchCall (query : String)
  | genCall (messages : List Turn)
  | convPut (table userId conversationId : String) (history : List Turn) (timestamp : String)
deriving BEq, Repr

/-- Per-invocation environment of the chat handler: clock, random draw,
the save timestamp, and the outcome of each external call
(`Except.error` carrying the thrown error). -/
structure ChatEnv where
  nowMs : Nat
  randDigits : List (Fin 36)
  isoTime : String
  searchResult : Except String (List ChatDoc)
  genResult : Except String String
  saveResult : Except String Unit

/-- The snippets obtained from the search call: its result list on
success, the empty list when the call throws (caught in
`searchRelevantDocuments`). -/
def searchDocs (env : ChatEnv) : List ChatDoc :=
  match env.searchResult with
  | .ok docs => docs
  | .error _ => []

/-- chat-lambda `searchRelevantDocuments`: one attempted search call; on
any failure the error is caught and an empty list returned. -/
def searchRelevantDocuments (env : ChatEnv) (query : String) :
    List ChatDoc × List ChatEffect :=
  (searchDocs env, [ChatEffect.searchCall query])

/-- The canned apology returned when the generation call fails. -/
def apologyMessage : String :=
  "I apologize, but I encountered an error generating a response. Please try again later."

/-- The citation entry pushed for one retrieved snippet:
`{documentId, title, location, excerpt}` with
`location = doc.metadata.pageNumber ? Page n : ''` (JS truthiness: a page
number 0 behaves like an absent one) and
`excerpt = doc.content.substring(0, 200) + '...'`. -/
def mkCitation (d : ChatDoc) : Citation where
  documentId := d.id
  title := d.title
  location :=
    match d.pageNumber with
    | some n => if n ≠ 0 then "Page " ++ natStr n else ""
    | none => ""
  excerpt := jsSubstring d.content 0 200 ++ "..."

/-- The knowledge-base context block embedded in the system message, one
`[Document i] title\ncontent\n\n` paragraph per snippet. -/
def contextBlock (documents : List ChatDoc) : String :=
  String.join (documents.enum.map (fun p =>
    "[Document " ++ natStr (p.1 + 1) ++ "] " ++ p.2.title ++ "\n" ++ p.2.content ++ "\n\n"))

/-- The static system instruction text ahead of the context block. -/
def systemInstr : String :=
  "You are an AI assistant that helps users find information in their documents."

/-- Output of `generateResponse`. -/
structure GenOutput where
  message : String
  sources : List Citation
deriving BEq, Repr

/-- The citations list built in `generateResponse` (one push per snippet
inside `if (documents.length > 0)`). -/
def ragSources (documents : List ChatDoc) : List Citation :=
  if documents.length > 0 then documents.map mkCitation else []

/-- The RAG context prepared in `generateResponse`. -/
def ragContext (documents : List ChatDoc) : String :=
  if documents.length > 0 then "Information from knowledge base:\n\n" ++ contextBlock documents
  else ""

/-- The message list sent to the generation service: the system message
embedding the context, then the full history. -/
def genMessages (history : List Turn) (documents : List ChatDoc) : List Turn :=
  { role := "system", content := systemInstr ++ "\n\n" ++ ragContext documents } :: history

/-- The assistant text produced by `generateResponse`: the completion on
success, the canned apology when the generation call throws. -/
def genText (env : ChatEnv) : String :=
  match env.genResult with
  | .ok txt => txt
  | .error _ => apologyMessage

/-- The sources returned by `generateResponse`: the built citations on
success, the empty list when the generation call throws. -/
def genSources (env : ChatEnv) (documents : List ChatDoc) : List Citation :=
  match env.genResult with
  | .ok _ => ragSources documents
  | .error _ => []

/-- chat-lambda `generateResponse`: builds the citations and the system
message, attempts the generation call once, and on any failure returns
the canned apology with an empty source list. -/
def generateResponse (env : ChatEnv) (history : List Turn)
    (documents : List ChatDoc) : GenOutput × List ChatEffect :=
  ({ message := genText env, sources := genSources env documents },
   [ChatEffect.genCall (genMessages history documents)])

/-- chat-lambda `saveConversation`: one DynamoDB put whose failure is
caught and swallowed (the outcome in `env.saveResult` is never consulted
by the rest of the pipeline). -/
def saveConversation (cfg : ChatConfig) (env : ChatEnv)
    (userId conversationId : String) (history : List Turn) : List ChatEffect :=
  [ChatEffect.convPut cfg.dynamoTable userId conversationId history env.isoTime]

/-- Result object of `processConversation`. -/
structure ChatResult where
  message : String
  conversationId : String
  sources : List Citation
deriving BEq, Repr

/-- `conversationId || generateConversationId()`: the supplied id when
truthy, a freshly minted one otherwise. -/
def newConvId (env : ChatEnv) (conversationId : Option String) : String :=
  match conversationId with
  | some c => if c = "" then generateConversationId env.nowMs env.randDigits else c
  | none => generateConversationId env.nowMs env.randDigits

/-- chat-lambda `processConversation`. -/
def processConversation (cfg : ChatConfig) (env : ChatEnv) (userId message : String)
    (conversationId : Option String) (history : List Turn) :
    ChatResult × List ChatEffect :=
  let newConversationId := newConvId env conversationId
  let conversationHistory := if history.length > 0 then history else []
  let h1 := conversationHistory ++ [{ role := "user", content := message }]
  let (relevantDocs, effS) := searchRelevantDocuments env message
  let (response, effG) := generateResponse env h1 relevantDocs
  let h2 := h1 ++ [{ role := "assistant", content := response.message }]
  let effP := saveConversation cfg env userId newConversationId h2
  ({ message := response.message
     conversationId := newConversationId
     sources := response.sources },
   effS ++ effG ++ effP)

/-- Response body of the chat handler. -/
inductive ChatBody where
  | err (error : String) (details : Option String)
  | ok (result : ChatResult)
deriving BEq, Repr

/-- chat-lambda `createResponse` output (constant CORS headers omitted). -/
structure ChatResponse where
  statusCode : Nat
  body : ChatBody
deriving BEq, Repr

/-- Parsed JSON body plus authorizer claims of a chat request
(`message = none` models an absent message property). -/
structure ChatRequest where
  message : Option String
  conversationId : Option String
  history : List Turn
  claimsSub : Option String

/-- chat-lambda `exports.handler` on a successfully parsed JSON body,
paired with the trace of attempted external calls. -/
def chatHandler (cfg : ChatConfig) (env : ChatEnv) (req : ChatRequest) :
    ChatResponse × List ChatEffect :=
  match req.message with
  | none => ({ statusCode := 400, body := .err "Message is required" none }, [])
  | some m =>
    if m = "" then ({ statusCode := 400, body := .err "Message is required" none }, [])
    else
      match req.claimsSub with
      | none => ({ statusCode := 401, body := .err "Unauthorized" none }, [])
      | some userId =>
        let (result, effs) := processConversation cfg env userId m req.conversationId req.history
        ({ statusCode := 200, body := .ok result }, effs)

/-! ## Definitions formalizing the spec's wording (for the claims) -/

/-- Drop a literal character sequence from the front of a list, `none` if
it does not start with that sequence. -/
def dropLit : List Char → List Char → Option (List Char)
  | [], cs => some cs
  | _ :: _, [] => none
  | p :: ps, c :: cs => if p = c then dropLit ps cs else none

/-- Checker for the spec's id pattern `<tag>_<digits>_<8 alphanumerics>`:
the tag, an underscore, at least one decimal digit, an underscore, and
then exactly eight alphanumeric characters to the end. -/
def matchesIdPattern (tag : String) (s : String) : Bool :=
  match dropLit (tag.data ++ ['_']) s.data with
  | none => false
  | some rest =>
    let ds := rest.takeWhile Char.isDigit
    let rest2 := rest.dropWhile Char.isDigit
    !ds.isEmpty &&
      match rest2 with
      | '_' :: suffix => suffix.length = 8 && suffix.all Char.isAlphanum
      | _ => false

/-- Title of the document echoed in a 201 upload response, `none` on an
error body. -/
def UploadResponse.docTitle (r : UploadResponse) : Option JVal :=
  match r.body with
  | .doc _ _ _ _ t _ _ => some t
  | .err _ _ => none

/-- Sources list of a 200 chat response, `none` on an error body. -/
def ChatResponse.okSources (r : ChatResponse) : Option (List Citation) :=
  match r.body with
  | .ok res => some res.sources
  | .err _ _ => none

/-- Message text of a 200 chat response, `none` on an error body. -/
def ChatResponse.okMessage (r : ChatResponse) : Option String :=
  match r.body with
  | .ok res => some res.message
  | .err _ _ => none

/-- Modelled from the spec, for the amended C7: a file is acceptable when
its content type is in the configured MIME allow-list, or when its
filename extension — the dot-free character run after the last dot, or
the whole dotless filename — lower-cases to one of pdf, docx, txt. -/
def specValidFile (cfg : UploadConfig) (f : UploadFile) : Prop :=
  f.contentType ∈ cfg.allowedTypes ∨
    ∃ ext : List Char, '.' ∉ ext ∧
      String.mk (ext.map Char.toLower) ∈ (["pdf", "docx", "txt"] : List String) ∧
      (f.filename.data = ext ∨ ∃ pre : List Char, f.filename.data = pre ++ '.' :: ext)

/-- Modelled from the spec, for the amended C9: one citation per
retrieved snippet, in retrieval order, carrying the snippet's document id
and title, the label `Page n` exactly when a nonzero page number is
available (the empty string otherwise), and an excerpt consisting of the
first `min 200 (content length)` characters of the content followed by an
ellipsis. -/
def specCitations (docs : List ChatDoc) : List Citation :=
  docs.map (fun d =>
    { documentId := d.id
      title := d.title
      location :=
        match d.pageNumber with
        | some n => if n ≠ 0 then "Page " ++ natStr n else ""
        | none => ""
      excerpt := String.mk (d.content.data.take 200) ++ "..." })

/-! ## Concrete fixtures used by the witnesses -/

/-- A JSON.parse stub that fails on every input. -/
def stubParseNone : String → Option JVal := fun _ => none

/-- A JSON.stringify stub (its output is never inspected by a claim). -/
def stubStringify : JVal → String := fun _ => "null"

/-- An upload environment in which every AWS call succeeds. -/
def uploadEnvOk : UploadEnv where
  nowMs := 1
  randDigits := [18]
  isoUploaded := "2026-01-01T00:00:00.000Z"
  isoQueued := "2026-01-01T00:00:00.001Z"
  parseJson := stubParseNone
  stringifyJson := stubStringify
  s3Result := .ok ()
  dynamoResult := .ok ()
  sqsResult := .ok ()

/-- A small-limit upload configuration (3-byte maximum) so that witnesses
can evaluate an oversized upload on a tiny file. -/
def uploadCfgSmall : UploadConfig where
  bucketName := "b"
  processingQueue := "q"
  maxFileSize := 3
  dynamoTable := "docs"
  allowedTypes := ["application/pdf"]

/-- A chat configuration fixture. -/
def chatCfgW : ChatConfig where
  dynamoTable := "convs"

/-- A chat environment in which both external services fail. -/
def chatEnvBothFail : ChatEnv where
  nowMs := 1
  randDigits := [18]
  isoTime := "t"
  searchResult := .error "search down"
  genResult := .error "gen down"
  saveResult := .ok ()

/-- A chat environment in which retrieval returns nothing and generation
succeeds. -/
def chatEnvOk : ChatEnv where
  nowMs := 1
  randDigits := [18]
  isoTime := "t"
  searchResult := .ok []
  genResult := .ok "Hello!"
  saveResult := .ok ()

/-- A chat request carrying the message hello on an existing conversation. -/
def chatReqHello : ChatRequest where
  message := some "hello"
  conversationId := some "c1"
  history := []
  claimsSub := some "u1"

/-! ## C1 -/

/-- C1: for an authenticated upload whose first file exceeds the
configured maximum size the handler answers 413, and for one whose file
is within the limit but has a disallowed content type and extension it
answers 400; in both cases the trace of attempted external calls is
empty — no blob upload, no record write, no queue send. -/
theorem upload_invalid_rejected_without_side_effects
    (cfg : UploadConfig) (env : UploadEnv) (req : UploadRequest) (u : String)
    (f : UploadFile) (rest : List UploadFile)
    (hauth : req.claimsSub = some u) (hfiles : req.files = f :: rest) :
    (f.content.length > cfg.maxFileSize →
      (uploadHandler cfg env req).1.statusCode = 413 ∧ (uploadHandler cfg env req).2 = []) ∧
    (f.content.length ≤ cfg.maxFileSize → isValidFileType cfg f = false →
      (uploadHandler cfg env req).1.statusCode = 400 ∧ (uploadHandler cfg env req).2 = []) := by
  unfold uploadHandler
  rw [hauth, hfiles]
  constructor
  · intro h
    simp [h]
  · intro h1 h2
    simp [Nat.not_lt.mpr h1, h2]

/-- C1 witness: with a 3-byte limit, a 4-byte PDF is answered 413 with an
empty effect trace, and a 2-byte `.doc` file with a non-allow-listed
content type is answered 400 with an empty effect trace. -/
theorem upload_invalid_rejected_witness :
    ((uploadHandler uploadCfgSmall uploadEnvOk
        { claimsSub := some "u1",
          files := [⟨"a.pdf", "application/pdf", "abcd"⟩],
          metadataField := none }).1.statusCode = 413 ∧
     (uploadHandler uploadCfgSmall uploadEnvOk
        { claimsSub := some "u1",
          files := [⟨"a.pdf", "application/pdf", "abcd"⟩],
          metadataField := none }).2 = []) ∧
    ((uploadHandler uploadCfgSmall uploadEnvOk
        { claimsSub := some "u1",
          files := [⟨"a.doc", "application/octet-stream", "ab"⟩],
          metadataField := none }).1.statusCode = 400 ∧
     (uploadHandler uploadCfgSmall uploadEnvOk
        { claimsSub := some "u1",
          files := [⟨"a.doc", "application/octet-stream", "ab"⟩],
          metadataField := none }).2 = []) :=
  ⟨(upload_invalid_rejected_without_side_effects uploadCfgSmall uploadEnvOk _ "u1"
      ⟨"a.pdf", "application/pdf", "abcd"⟩ [] rfl rfl).1 (by decide),
   (upload_invalid_rejected_without_side_effects uploadCfgSmall uploadEnvOk _ "u1"
      ⟨"a.doc", "application/octet-stream", "ab"⟩ [] rfl rfl).2 (by decide) (by decide)⟩

/-! ## C2 -/

/-- C2: an upload request whose authenticated-claims context carries no
subject id is answered 401 with an empty effect trace — no blob upload,
no record write, no queue send. -/
theorem upload_unauthorized_no_side_effects
    (cfg : UploadConfig) (env : UploadEnv) (req : UploadRequest)
    (h : req.claimsSub = none) :
    (uploadHandler cfg env req).1.statusCode = 401 ∧
    (uploadHandler cfg env req).2 = [] := by
  unfold uploadHandler
  rw [h]
  exact ⟨rfl, rfl⟩

/-- C2 witness: a concrete upload request without a subject id. -/
theorem upload_unauthorized_witness :
    (uploadHandler uploadCfgSmall uploadEnvOk
       { claimsSub := none,
         files := [⟨"a.pdf", "application/pdf", "ab"⟩],
         metadataField := none }).1.statusCode = 401 ∧
    (uploadHandler uploadCfgSmall uploadEnvOk
       { claimsSub := none,
         files := [⟨"a.pdf", "application/pdf", "ab"⟩],
         metadataField := none }).2 = [] :=
  upload_unauthorized_no_side_effects uploadCfgSmall uploadEnvOk _ rfl

/-! ## C3 -/

/-- C3: on an authenticated chat request with a non-empty message, a
failing search call still yields a 200 response with an empty sources
list, and a failing generation call yields a 200 response whose message
is the fixed apology string with an empty sources list; neither failure
surfaces as an error status. -/
theorem chat_upstream_failures_are_soft
    (cfg : ChatConfig) (env : ChatEnv) (req : ChatRequest) (m u : String)
    (hm : req.message = some m) (hm0 : m ≠ "") (hu : req.claimsSub = some u) :
    (∀ e, env.searchResult = .error e →
       (chatHandler cfg env req).1.statusCode = 200 ∧
       (chatHandler cfg env req).1.okSources = some []) ∧
    (∀ e, env.genResult = .error e →
       (chatHandler cfg env req).1.statusCode = 200 ∧
       (chatHandler cfg env req).1.okMessage = some apologyMessage ∧
       (chatHandler cfg env req).1.okSources = some []) := by
  unfold chatHandler
  rw [hm, hu]
  dsimp only
  rw [if_neg hm0]
  constructor
  · intro e hs
    cases hg : env.genResult <;>
      simp [processConversation, searchRelevantDocuments, generateResponse, searchDocs,
        genText, genSources, ragSources, hs, hg, ChatResponse.okSources,
        ChatResponse.okMessage]
  · intro e hg
    cases hs : env.searchResult <;>
      simp [processConversation, searchRelevantDocuments, generateResponse, searchDocs,
        genText, genSources, ragSources, hs, hg, ChatResponse.okSources,
        ChatResponse.okMessage]

/-- C3 witness: a concrete authenticated hello request against an
environment in which both the search and the generation calls fail. -/
theorem chat_upstream_failures_witness :
    ((chatHandler chatCfgW chatEnvBothFail chatReqHello).1.statusCode = 200 ∧
     (chatHandler chatCfgW chatEnvBothFail chatReqHello).1.okSources = some []) ∧
    ((chatHandler chatCfgW chatEnvBothFail chatReqHello).1.statusCode = 200 ∧
     (chatHandler chatCfgW chatEnvBothFail chatReqHello).1.okMessage = some apologyMessage ∧
     (chatHandler chatCfgW chatEnvBothFail chatReqHello).1.okSources = some []) :=
  ⟨(chat_upstream_failures_are_soft chatCfgW chatEnvBothFail chatReqHello "hello" "u1"
      rfl (by decide) rfl).1 "search down" rfl,
   (chat_upstream_failures_are_soft chatCfgW chatEnvBothFail chatReqHello "hello" "u1"
      rfl (by decide) rfl).2 "gen down" rfl⟩

/-! ## C4 -/

/-- C4: a successful chat turn attempts exactly one Record Store write,
keyed by the user id and the conversation id, whose history is exactly
the supplied prior turns followed by the new user turn and the new
assistant turn in that order; and the 200 response does not depend on the
outcome of that save — a save failure is swallowed. -/
theorem chat_persists_prior_plus_two_turns
    (cfg : ChatConfig) (env : ChatEnv) (req : ChatRequest) (m u : String)
    (hm : req.message = some m) (hm0 : m ≠ "") (hu : req.claimsSub = some u) :
    (chatHandler cfg env req).2 =
      [ChatEffect.searchCall m,
       ChatEffect.genCall
         (genMessages (req.history ++ [{ role := "user", content := m }]) (searchDocs env)),
       ChatEffect.convPut cfg.dynamoTable u (newConvId env req.conversationId)
         (req.history ++ [{ role := "user", content := m },
                          { role := "assistant", content := genText env }]) env.isoTime] ∧
    (chatHandler cfg env req).1 =
      { statusCode := 200,
        body := ChatBody.ok
          { message := genText env
            conversationId := newConvId env req.conversationId
            sources := genSources env (searchDocs env) } } ∧
    ∀ sr, (chatHandler cfg { env with saveResult := sr } req).1 = (chatHandler cfg env req).1 := by
  have hh : (if req.history.length > 0 then req.history else []) = req.history := by
    cases req.history <;> simp
  refine ⟨?_, ?_, ?_⟩
  · unfold chatHandler
    rw [hm, hu]
    dsimp only
    rw [if_neg hm0]
    simp [processConversation, searchRelevantDocuments, generateResponse, saveConversation, hh]
  · unfold chatHandler
    rw [hm, hu]
    dsimp only
    rw [if_neg hm0]
    simp [processConversation, searchRelevantDocuments, generateResponse, saveConversation, hh]
  · intro sr
    unfold chatHandler
    rw [hm, hu]
    dsimp only
    simp only [if_neg hm0]
    rfl

/-- C4 witness: the hello request with no prior history persists exactly
the two-turn history (user then assistant) under (u1, c1), and returns
200. -/
theorem chat_persists_witness :
    (chatHandler chatCfgW chatEnvOk chatReqHello).2 =
      [ChatEffect.searchCall "hello",
       ChatEffect.genCall
         (genMessages ([] ++ [{ role := "user", content := "hello" }]) (searchDocs chatEnvOk)),
       ChatEffect.convPut "convs" "u1" (newConvId chatEnvOk (some "c1"))
         ([] ++ [{ role := "user", content := "hello" },
                 { role := "assistant", content := genText chatEnvOk }]) "t"] ∧
    (chatHandler chatCfgW chatEnvOk chatReqHello).1 =
      { statusCode := 200,
        body := ChatBody.ok
          { message := genText chatEnvOk
            conversationId := newConvId chatEnvOk (some "c1")
            sources := genSources chatEnvOk (searchDocs chatEnvOk) } } ∧
    ∀ sr, (chatHandler chatCfgW { chatEnvOk with saveResult := sr } chatReqHello).1 =
      (chatHandler chatCfgW chatEnvOk chatReqHello).1 :=
  chat_persists_prior_plus_two_turns chatCfgW chatEnvOk chatReqHello "hello" "u1"
    rfl (by decide) rfl

/-! ## C5 -/

/-- Character data of a string concatenation. -/
theorem string_data_append (a b : String) : (a ++ b).data = a.data ++ b.data := rfl

/-- C5 counterexample: two uploads with distinct generated document ids
(clock 1 with draw digit 10, and clock 2 with draw digit 11) can still
receive the same storage key, because the user id and the filename may
themselves contain the `/` separator: user `u` with filename `doc_2_b/f`
and user `u/doc_1_a` with filename `f` collide on `u/doc_1_a/doc_2_b/f`. -/
theorem s3key_collision_counterexample :
    generateDocumentId 1 [10] ≠ generateDocumentId 2 [11] ∧
    mkS3Key "u" (generateDocumentId 1 [10]) "doc_2_b/f" =
      mkS3Key "u/doc_1_a" (generateDocumentId 2 [11]) "f" := by
  decide

/-- C5 amended: the storage key is a deterministic function of
(user id, document id, filename) — equal triples give equal keys — and
for two uploads sharing the user id and the filename, distinct document
ids give distinct storage keys, so a same-user re-upload of the same file
under a new document id never collides with the prior object. -/
theorem s3key_deterministic_injective_in_docid
    (userId filename d1 d2 : String) (hd : d1 ≠ d2) :
    (∀ u' d' n', userId = u' → d1 = d' → filename = n' →
       mkS3Key userId d1 filename = mkS3Key u' d' n') ∧
    mkS3Key userId d1 filename ≠ mkS3Key userId d2 filename := by
  constructor
  · intro u' d' n' h1 h2 h3
    rw [h1, h2, h3]
  · intro h
    apply hd
    have h' := congrArg String.data h
    simp only [mkS3Key, string_data_append, List.append_assoc] at h'
    have h2 := List.append_cancel_left h'
    simp only [List.singleton_append, List.cons.injEq, true_and] at h2
    have h3 := List.append_cancel_right h2
    cases d1
    cases d2
    exact congrArg String.mk h3

/-- C5 witness: concrete distinct document ids under the same user and
filename give distinct keys. -/
theorem s3key_injective_witness :
    (∀ u' d' n', "u1" = u' → "doc_1_a" = d' → "report.pdf" = n' →
       mkS3Key "u1" "doc_1_a" "report.pdf" = mkS3Key u' d' n') ∧
    mkS3Key "u1" "doc_1_a" "report.pdf" ≠ mkS3Key "u1" "doc_2_b" "report.pdf" :=
  s3key_deterministic_injective_in_docid "u1" "report.pdf" "doc_1_a" "doc_2_b" (by decide)

/-! ## C6 -/

/-- The random id suffix is the first eight base-36 characters of the
draw's digit expansion. -/
theorem genIdSuffix_eq (digits : List (Fin 36)) :
    genIdSuffix digits = String.mk ((digits.map base36Char).take 8) := by
  cases digits <;> rfl

/-- Every base-36 digit character is alphanumeric. -/
theorem base36Char_alnum (d : Fin 36) : (base36Char d).isAlphanum = true := by
  fin_cases d <;> decide

/-- Decimal digit characters are digits. -/
theorem digitChar_isDigit (n : Nat) (h : n < 10) : (digitChar n).isDigit = true := by
  interval_cases n <;> decide

/-- Every character of the fuel-based decimal expansion is a digit, given
sufficient fuel. -/
theorem decimalCharsFuel_all_digit (fuel : Nat) :
    ∀ n, n < fuel → ∀ c ∈ decimalCharsFuel fuel n, c.isDigit = true := by
  induction fuel with
  | zero => intro n h; omega
  | succ f ih =>
    intro n _ c hc
    simp only [decimalCharsFuel] at hc
    by_cases h10 : n < 10
    · rw [if_pos h10] at hc
      simp only [List.mem_singleton] at hc
      subst hc
      exact digitChar_isDigit n h10
    · rw [if_neg h10] at hc
      rcases List.mem_append.mp hc with hrec | hlast
      · have hdiv : n / 10 < f := by
          have h1 : n / 10 < n := Nat.div_lt_self (by omega) (by omega)
          omega
        exact ih (n / 10) hdiv c hrec
      · simp only [List.mem_singleton] at hlast
        subst hlast
        exact digitChar_isDigit (n % 10) (Nat.mod_lt n (by omega))

/-- Every character of the decimal representation is a digit. -/
theorem decimalChars_all_digit (n : Nat) : ∀ c ∈ decimalChars n, c.isDigit = true :=
  decimalCharsFuel_all_digit (n + 1) n (Nat.lt_succ_self n)

/-- The decimal representation is never empty. -/
theorem decimalChars_ne_nil (n : Nat) : decimalChars n ≠ [] := by
  unfold decimalChars
  simp only [decimalCharsFuel]
  split <;> simp

/-- Dropping a literal run from a list that starts with it leaves the
rest. -/
theorem dropLit_append (p r : List Char) : dropLit p (p ++ r) = some r := by
  induction p with
  | nil => rfl
  | cons c cs ih => simp [dropLit, ih]

/-- takeWhile of all-digit characters followed by an underscore. -/
theorem takeWhile_digits_underscore (A B : List Char)
    (hA : ∀ c ∈ A, c.isDigit = true) :
    (A ++ '_' :: B).takeWhile Char.isDigit = A ∧
    (A ++ '_' :: B).dropWhile Char.isDigit = '_' :: B := by
  induction A with
  | nil => constructor <;> rfl
  | cons a A ih =>
    have ha : a.isDigit = true := hA a (List.mem_cons_self a A)
    have ih2 := ih (fun c hc => hA c (List.mem_cons_of_mem a hc))
    constructor
    · simp [List.takeWhile_cons, ha, ih2.1]
    · simp [List.dropWhile_cons, ha, ih2.2]

/-- The id pattern checker accepts `<tag>_<decimal>_<suffix>` for any
8-character alphanumeric suffix. -/
theorem matchesIdPattern_mk (tag : String) (now : Nat) (suffix : List Char)
    (hlen : suffix.length = 8) (halnum : ∀ c ∈ suffix, c.isAlphanum = true) :
    matchesIdPattern tag ((tag ++ "_") ++ natStr now ++ "_" ++ String.mk suffix) = true := by
  unfold matchesIdPattern
  have hdata : ((tag ++ "_") ++ natStr now ++ "_" ++ String.mk suffix).data =
      (tag.data ++ ['_']) ++ (decimalChars now ++ '_' :: suffix) := by
    simp [string_data_append, natStr, List.append_assoc]
  rw [hdata, dropLit_append]
  have htw := takeWhile_digits_underscore (decimalChars now) suffix (decimalChars_all_digit now)
  simp only [htw.1, htw.2]
  simp [List.isEmpty_iff, decimalChars_ne_nil now, hlen, List.all_eq_true]
  exact halnum

/-- C6 counterexample: for the clock value 1 and the random draw 0.5
(whose base-36 expansion is the single digit 18, printed as `0.i` by JS),
the generated ids are `doc_1_i` and `conv_1_i`: their suffix after the
second underscore has length 1, not 8, so neither matches the claimed
`<tag>_<digits>_<8 alphanumerics>` pattern. -/
theorem generated_id_pattern_counterexample :
    matchesIdPattern "doc" (generateDocumentId 1 [(18 : Fin 36)]) = false ∧
    matchesIdPattern "conv" (generateConversationId 1 [(18 : Fin 36)]) = false := by
  decide

/-- C6 amended: every generated id is the tag, an underscore, the decimal
clock value, an underscore, and a suffix of at most eight alphanumeric
(base-36) characters — exactly eight only when the draw's base-36
expansion has at least eight digits, in which case the ids match the
claimed `<tag>_<digits>_<8 alphanumerics>` pattern. -/
theorem generated_ids_shape (now : Nat) (digits : List (Fin 36)) :
    generateDocumentId now digits =
      "doc_" ++ natStr now ++ "_" ++ String.mk ((digits.map base36Char).take 8) ∧
    (genIdSuffix digits).length ≤ 8 ∧
    (∀ c ∈ (genIdSuffix digits).data, c.isAlphanum = true) ∧
    (8 ≤ digits.length →
      matchesIdPattern "doc" (generateDocumentId now digits) = true ∧
      matchesIdPattern "conv" (generateConversationId now digits) = true) := by
  have hsuf := genIdSuffix_eq digits
  refine ⟨by rw [generateDocumentId, hsuf], ?_, ?_, ?_⟩
  · rw [hsuf]
    show ((digits.map base36Char).take 8).length ≤ 8
    simp [List.length_take]
  · rw [hsuf]
    intro c hc
    have := List.mem_of_mem_take hc
    rcases List.mem_map.mp this with ⟨d, _, rfl⟩
    exact base36Char_alnum d
  · intro h8
    have hlen : ((digits.map base36Char).take 8).length = 8 := by
      simp [List.length_take]
      omega
    have halnum : ∀ c ∈ (digits.map base36Char).take 8, c.isAlphanum = true := by
      intro c hc
      rcases List.mem_map.mp (List.mem_of_mem_take hc) with ⟨d, _, rfl⟩
      exact base36Char_alnum d
    constructor
    · have := matchesIdPattern_mk "doc" now ((digits.map base36Char).take 8) hlen halnum
      rw [generateDocumentId, hsuf]
      simpa [String.append_assoc] using this
    · have := matchesIdPattern_mk "conv" now ((digits.map base36Char).take 8) hlen halnum
      rw [generateConversationId, hsuf]
      simpa [String.append_assoc] using this

/-- C6 amended witness: with an 8-digit draw the generated ids match the
pattern. -/
theorem generated_ids_shape_witness :
    matchesIdPattern "doc"
      (generateDocumentId 5 ([18, 0, 1, 2, 3, 35, 9, 10] : List (Fin 36))) = true ∧
    matchesIdPattern "conv"
      (generateConversationId 5 ([18, 0, 1, 2, 3, 35, 9, 10] : List (Fin 36))) = true :=
  (generated_ids_shape 5 ([18, 0, 1, 2, 3, 35, 9, 10] : List (Fin 36))).2.2.2 (by decide)

/-! ## C7 -/

/-- Joining character-list segments with a dot (inverse of `splitOnDot`). -/
def joinWithDot : List (List Char) → List Char
  | [] => []
  | [x] => x
  | x :: y :: ys => x ++ '.' :: joinWithDot (y :: ys)

/-- `splitOnDot` never returns an empty segment list. -/
theorem splitOnDot_ne_nil (cs : List Char) : splitOnDot cs ≠ [] := by
  cases cs with
  | nil => simp [splitOnDot]
  | cons c cs =>
    simp only [splitOnDot]
    cases splitOnDot cs with
    | nil => simp
    | cons h t =>
      dsimp only
      by_cases hc : c = '.' <;> simp [hc]

/-- Joining the split segments restores the original characters. -/
theorem joinWithDot_splitOnDot (cs : List Char) : joinWithDot (splitOnDot cs) = cs := by
  induction cs with
  | nil => rfl
  | cons c cs ih =>
    simp only [splitOnDot]
    cases hr : splitOnDot cs with
    | nil => exact absurd hr (splitOnDot_ne_nil cs)
    | cons h t =>
      rw [hr] at ih
      dsimp only
      by_cases hc : c = '.'
      · subst hc
        simpa [joinWithDot] using ih
      · rw [if_neg hc]
        cases t with
        | nil => simpa [joinWithDot] using ih
        | cons y ys => simpa [joinWithDot] using ih

/-- The last split segment contains no dot. -/
theorem splitOnDot_last_no_dot (cs : List Char) : '.' ∉ (splitOnDot cs).getLastD [] := by
  induction cs with
  | nil => simp [splitOnDot]
  | cons c cs ih =>
    simp only [splitOnDot]
    cases hr : splitOnDot cs with
    | nil => exact absurd hr (splitOnDot_ne_nil cs)
    | cons h t =>
      rw [hr] at ih
      dsimp only
      by_cases hc : c = '.'
      · subst hc
        simpa [List.getLastD_cons] using ih
      · rw [if_neg hc]
        cases t with
        | nil =>
          simp only [List.getLastD_cons, List.getLastD_nil] at ih ⊢
          simp only [List.mem_cons, not_or]
          exact ⟨fun hcc => hc hcc.symm, ih⟩
        | cons y ys => simpa [List.getLastD_cons] using ih

/-- Splitting a dot-free list gives a single segment. -/
theorem splitOnDot_no_dot (cs : List Char) (h : '.' ∉ cs) : splitOnDot cs = [cs] := by
  induction cs with
  | nil => rfl
  | cons c cs ih =>
    simp only [List.mem_cons, not_or] at h
    rw [splitOnDot, ih h.2]
    dsimp only
    rw [if_neg (Ne.symm h.1)]

/-- Splitting distributes over a dot separator. -/
theorem splitOnDot_append_dot (A B : List Char) :
    splitOnDot (A ++ '.' :: B) = splitOnDot A ++ splitOnDot B := by
  induction A with
  | nil =>
    show splitOnDot ('.' :: B) = splitOnDot [] ++ splitOnDot B
    simp only [splitOnDot]
    cases hr : splitOnDot B with
    | nil => exact absurd hr (splitOnDot_ne_nil B)
    | cons h t => dsimp only; simp
  | cons c A ih =>
    show splitOnDot (c :: (A ++ '.' :: B)) = splitOnDot (c :: A) ++ splitOnDot B
    simp only [splitOnDot, ih]
    cases hr : splitOnDot A with
    | nil => exact absurd hr (splitOnDot_ne_nil A)
    | cons h t =>
      simp only [List.cons_append]
      by_cases hc : c = '.' <;> simp [hc]

/-- Joining segments ending in a final segment. -/
theorem joinWithDot_concat (A : List (List Char)) (x : List Char) (hA : A ≠ []) :
    joinWithDot (A ++ [x]) = joinWithDot A ++ '.' :: x := by
  induction A with
  | nil => exact absurd rfl hA
  | cons a A ih =>
    cases A with
    | nil => rfl
    | cons b bs =>
      have hstep := ih (by simp)
      simp only [List.cons_append, joinWithDot, List.append_eq] at hstep ⊢
      rw [hstep]
      simp [List.append_assoc]

/-- C7 counterexample: a file named `a.doc` whose content type
`application/octet-stream` is not in the MIME allow-list is rejected by
`isValidFileType` — the extension allow-list of the code is
pdf/docx/txt and does not include doc — and the upload handler answers
400 for it, where the claim says it is accepted. -/
theorem doc_extension_rejected_counterexample :
    isValidFileType defaultUploadConfig ⟨"a.doc", "application/octet-stream", "x"⟩ = false ∧
    (uploadHandler defaultUploadConfig uploadEnvOk
       { claimsSub := some "u1",
         files := [⟨"a.doc", "application/octet-stream", "x"⟩],
         metadataField := none }).1.statusCode = 400 := by
  decide

/-- C7 amended: validation accepts a file exactly when its content type
is in the configured MIME allow-list or its filename extension — the
dot-free run after the last dot, or the whole dotless filename —
lower-cases to pdf, docx, or txt (doc is not in the extension list, so a
`.doc` file with a non-allow-listed content type is rejected). -/
theorem isValidFileType_iff_spec (cfg : UploadConfig) (f : UploadFile) :
    isValidFileType cfg f = true ↔ specValidFile cfg f := by
  unfold isValidFileType specValidFile
  constructor
  · intro h
    by_cases hmime : cfg.allowedTypes.contains f.contentType
    · exact Or.inl (List.elem_iff.mp hmime)
    · rw [if_neg hmime] at h
      refine Or.inr ⟨(splitOnDot f.filename.data).getLastD [], splitOnDot_last_no_dot _, ?_, ?_⟩
      · exact List.elem_iff.mp h
      · rcases List.eq_nil_or_concat (splitOnDot f.filename.data) with hS | ⟨A, x, hS⟩
        · exact absurd hS (splitOnDot_ne_nil _)
        · rw [List.concat_eq_append] at hS
          have hjoin := joinWithDot_splitOnDot f.filename.data
          rw [hS, List.getLastD_concat]
          cases A with
          | nil =>
            left
            rw [hS] at hjoin
            exact hjoin.symm
          | cons a as =>
            right
            rw [hS, joinWithDot_concat _ _ (by simp)] at hjoin
            exact ⟨joinWithDot (a :: as), hjoin.symm⟩
  · intro h
    rcases h with hmime | ⟨ext, hdot, hmem, hdecomp⟩
    · rw [if_pos (List.elem_iff.mpr hmime)]
    · have hlast : (splitOnDot f.filename.data).getLastD [] = ext := by
        rcases hdecomp with hwhole | ⟨pre, hpre⟩
        · rw [hwhole, splitOnDot_no_dot ext hdot]
          rfl
        · rw [hpre, splitOnDot_append_dot, splitOnDot_no_dot ext hdot,
            List.getLastD_concat]
      have hext : (["pdf", "docx", "txt"] : List String).contains
          (fileExtension f.filename) = true := by
        unfold fileExtension
        rw [hlast]
        exact List.elem_iff.mpr hmem
      split
      · rfl
      · exact hext

/-- C7 witness (amended): the code accepts `Report.PDF` with an unknown
content type, and the spec predicate holds of it with extension `PDF`. -/
theorem isValidFileType_iff_spec_witness :
    (isValidFileType defaultUploadConfig ⟨"Report.PDF", "application/octet-stream", "x"⟩ = true)
      ↔ specValidFile defaultUploadConfig ⟨"Report.PDF", "application/octet-stream", "x"⟩ :=
  isValidFileType_iff_spec defaultUploadConfig ⟨"Report.PDF", "application/octet-stream", "x"⟩

/-! ## C8 -/

/-- The raw metadata field text for a JSON object with an empty title. -/
def metaEmptyTitle : String := "\x7b\"title\": \"\"\x7d"

/-- The raw metadata field text for a JSON object with title Q1 Report. -/
def metaTitleQ1 : String := "\x7b\"title\": \"Q1 Report\"\x7d"

/-- An upload environment whose JSON.parse fragment maps the
empty-title metadata text to its parsed object and everything else to a
parse failure. -/
def uploadEnvEmptyTitle : UploadEnv :=
  { uploadEnvOk with
    parseJson := fun s =>
      if s = metaEmptyTitle then some (JVal.obj [("title", JVal.str "")]) else none }

/-- An upload environment whose JSON.parse fragment maps the Q1-title
metadata text to its parsed object and everything else to a parse
failure. -/
def uploadEnvQ1 : UploadEnv :=
  { uploadEnvOk with
    parseJson := fun s =>
      if s = metaTitleQ1 then some (JVal.obj [("title", JVal.str "Q1 Report")]) else none }

/-- C8 counterexample: an otherwise-valid upload whose metadata field is
the JSON object with an empty-string title succeeds, but the returned
title is the filename `a.pdf`, not the supplied empty title value — JS
`metadata.title || file.filename` treats the empty string as falsy, where
the claim says the returned title equals the parsed title value. -/
theorem metadata_empty_title_counterexample :
    (uploadHandler uploadCfgSmall uploadEnvEmptyTitle
       { claimsSub := some "u1",
         files := [⟨"a.pdf", "application/pdf", "x"⟩],
         metadataField := some metaEmptyTitle }).1.statusCode = 201 ∧
    (uploadHandler uploadCfgSmall uploadEnvEmptyTitle
       { claimsSub := some "u1",
         files := [⟨"a.pdf", "application/pdf", "x"⟩],
         metadataField := some metaEmptyTitle }).1.docTitle = some (JVal.str "a.pdf") ∧
    JVal.str "a.pdf" ≠ JVal.str "" := by
  refine ⟨rfl, rfl, ?_⟩
  simp

/-- C8 amended: for an otherwise-valid upload with AWS calls succeeding,
a metadata field that fails to parse still yields 201 with the filename
as title; a parsed object with a truthy title yields that title; a parsed
object whose title is falsy (such as the empty string) falls back to the
filename. -/
theorem upload_metadata_title
    (cfg : UploadConfig) (env : UploadEnv) (req : UploadRequest) (u : String)
    (f : UploadFile) (rest : List UploadFile) (m : String)
    (hauth : req.claimsSub = some u) (hfiles : req.files = f :: rest)
    (hsize : ¬ f.content.length > cfg.maxFileSize)
    (htype : isValidFileType cfg f = true)
    (hm : req.metadataField = some m) (hm0 : m ≠ "")
    (hs3 : env.s3Result = .ok ()) (hdb : env.dynamoResult = .ok ())
    (hq : env.sqsResult = .ok ()) :
    (env.parseJson m = none →
       (uploadHandler cfg env req).1.statusCode = 201 ∧
       (uploadHandler cfg env req).1.docTitle = some (JVal.str f.filename)) ∧
    (∀ fs t, env.parseJson m = some (JVal.obj fs) → fs.lookup "title" = some t →
       jsTruthy t = true →
       (uploadHandler cfg env req).1.statusCode = 201 ∧
       (uploadHandler cfg env req).1.docTitle = some t) ∧
    (∀ fs t, env.parseJson m = some (JVal.obj fs) → fs.lookup "title" = some t →
       jsTruthy t = false →
       (uploadHandler cfg env req).1.statusCode = 201 ∧
       (uploadHandler cfg env req).1.docTitle = some (JVal.str f.filename)) := by
  refine ⟨?_, ?_, ?_⟩
  · intro hp
    simp [uploadHandler, hauth, hfiles, hsize, htype, hm, hm0, hp, processFile,
      hs3, hdb, hq, jsOrElse, UploadResponse.docTitle]
  · intro fs t hp hl htr
    simp [uploadHandler, hauth, hfiles, hsize, htype, hm, hm0, hp, processFile,
      hs3, hdb, hq, assignFields, hl, jsOrElse, htr, UploadResponse.docTitle]
  · intro fs t hp hl htr
    simp [uploadHandler, hauth, hfiles, hsize, htype, hm, hm0, hp, processFile,
      hs3, hdb, hq, assignFields, hl, jsOrElse, htr, UploadResponse.docTitle]

/-- C8 amended witness: invalid JSON metadata still gives 201 with the
filename as title, and a Q1 Report title is echoed back. -/
theorem upload_metadata_title_witness :
    ((uploadHandler uploadCfgSmall uploadEnvQ1
        { claimsSub := some "u1",
          files := [⟨"a.pdf", "application/pdf", "x"⟩],
          metadataField := some "not json" }).1.statusCode = 201 ∧
     (uploadHandler uploadCfgSmall uploadEnvQ1
        { claimsSub := some "u1",
          files := [⟨"a.pdf", "application/pdf", "x"⟩],
          metadataField := some "not json" }).1.docTitle = some (JVal.str "a.pdf")) ∧
    ((uploadHandler uploadCfgSmall uploadEnvQ1
        { claimsSub := some "u1",
          files := [⟨"a.pdf", "application/pdf", "x"⟩],
          metadataField := some metaTitleQ1 }).1.statusCode = 201 ∧
     (uploadHandler uploadCfgSmall uploadEnvQ1
        { claimsSub := some "u1",
          files := [⟨"a.pdf", "application/pdf", "x"⟩],
          metadataField := some metaTitleQ1 }).1.docTitle =
       some (JVal.str "Q1 Report")) :=
  ⟨(upload_metadata_title uploadCfgSmall uploadEnvQ1 _ "u1"
      ⟨"a.pdf", "application/pdf", "x"⟩ [] "not json" rfl rfl (by decide) (by decide)
      rfl (by decide) rfl rfl rfl).1 rfl,
   (upload_metadata_title uploadCfgSmall uploadEnvQ1 _ "u1"
      ⟨"a.pdf", "application/pdf", "x"⟩ [] metaTitleQ1 rfl rfl (by decide) (by decide)
      rfl (by decide) rfl rfl rfl).2.1
     [("title", JVal.str "Q1 Report")] (JVal.str "Q1 Report") rfl rfl rfl⟩

/-! ## C9 -/

/-- A chat environment retrieving one short snippet (content `hi`, page
number 2), with generation succeeding. -/
def chatEnvShortDoc : ChatEnv :=
  { chatEnvOk with
    searchResult := .ok [⟨"d1", "hi", "T", "s", some 2⟩]
    genResult := .ok "answer" }

/-- Each built citation equals its spec-side counterpart. -/
theorem mkCitation_eq_spec (d : ChatDoc) :
    mkCitation d =
      { documentId := d.id
        title := d.title
        location :=
          match d.pageNumber with
          | some n => if n ≠ 0 then "Page " ++ natStr n else ""
          | none => ""
        excerpt := String.mk (d.content.data.take 200) ++ "..." } := by
  simp [mkCitation, jsSubstring]

/-- The citations list built by the code is one `mkCitation` per snippet,
also when the snippet list is empty. -/
theorem ragSources_eq_map (docs : List ChatDoc) :
    ragSources docs = docs.map mkCitation := by
  cases docs <;> simp [ragSources]

/-- The spec-side citations are the mapped code citations. -/
theorem specCitations_eq_map (docs : List ChatDoc) :
    specCitations docs = docs.map mkCitation := by
  unfold specCitations
  induction docs with
  | nil => rfl
  | cons d ds ih => simp only [List.map_cons, mkCitation_eq_spec, ih]

/-- C9 counterexample: with one retrieved snippet whose content is `hi`
(and generation succeeding), the returned citation's excerpt is `hi...`,
a string of length 5 — not a fixed-length 200-character excerpt as the
claim states (the code takes at most 200 characters and appends an
ellipsis). -/
theorem excerpt_not_fixed_length_counterexample :
    (chatHandler chatCfgW chatEnvShortDoc chatReqHello).1.okSources =
      some [{ documentId := "d1", title := "T", location := "Page 2", excerpt := "hi..." }] ∧
    ("hi..." : String).length ≠ 200 := by
  exact ⟨rfl, by decide⟩

/-- C9 amended: when retrieval succeeds and generation succeeds, the 200
response carries one citation per retrieved snippet in retrieval order,
each with the snippet's document id and title, the label `Page n` exactly
when a nonzero page number is available (empty otherwise), and an excerpt
of the first `min 200 (content length)` characters of the content
followed by an ellipsis. -/
theorem chat_citations_match_spec
    (cfg : ChatConfig) (env : ChatEnv) (req : ChatRequest) (m u : String)
    (docs : List ChatDoc) (txt : String)
    (hm : req.message = some m) (hm0 : m ≠ "") (hu : req.claimsSub = some u)
    (hs : env.searchResult = .ok docs) (hg : env.genResult = .ok txt) :
    (chatHandler cfg env req).1.statusCode = 200 ∧
    (chatHandler cfg env req).1.okSources = some (specCitations docs) := by
  unfold chatHandler
  rw [hm, hu]
  dsimp only
  rw [if_neg hm0]
  simp [processConversation, searchRelevantDocuments, searchDocs, generateResponse,
    genSources, hs, hg, ChatResponse.okSources, ragSources_eq_map, specCitations_eq_map]

/-- C9 amended witness: the short-snippet environment yields exactly the
spec citations. -/
theorem chat_citations_match_spec_witness :
    (chatHandler chatCfgW chatEnvShortDoc chatReqHello).1.statusCode = 200 ∧
    (chatHandler chatCfgW chatEnvShortDoc chatReqHello).1.okSources =
      some (specCitations [⟨"d1", "hi", "T", "s", some 2⟩]) :=
  chat_citations_match_spec chatCfgW chatEnvShortDoc chatReqHello "hello" "u1"
    [⟨"d1", "hi", "T", "s", some 2⟩] "answer" rfl (by decide) rfl rfl rfl

/-! ## C10 -/

/-- C10: the chat handler checks the message before authorization — an
empty or missing message with no subject id is answered 400, not 401 —
while the upload handler checks authorization first, answering 401
whatever the file parts contain. -/
theorem chat_message_check_precedes_auth
    (cfgc : ChatConfig) (envc : ChatEnv) (reqc : ChatRequest)
    (cfgu : UploadConfig) (envu : UploadEnv) (requ : UploadRequest)
    (hm : reqc.message = none ∨ reqc.message = some "")
    (_hc : reqc.claimsSub = none) (hu : requ.claimsSub = none) :
    (chatHandler cfgc envc reqc).1.statusCode = 400 ∧
    (uploadHandler cfgu envu requ).1.statusCode = 401 := by
  have hup : (uploadHandler cfgu envu requ).1.statusCode = 401 := by
    unfold uploadHandler
    rw [hu]
  rcases hm with h | h
  · unfold chatHandler
    rw [h]
    exact ⟨rfl, hup⟩
  · unfold chatHandler
    rw [h]
    exact ⟨rfl, hup⟩

/-- C10 witness: a chat request with an empty message and no subject id
gets 400, and an upload request with a valid-looking file but no subject
id gets 401. -/
theorem chat_message_check_precedes_auth_witness :
    (chatHandler chatCfgW chatEnvOk
       { message := some "", conversationId := none, history := [], claimsSub := none
       }).1.statusCode = 400 ∧
    (uploadHandler uploadCfgSmall uploadEnvOk
       { claimsSub := none,
         files := [⟨"a.pdf", "application/pdf", "ab"⟩],
         metadataField := none }).1.statusCode = 401 :=
  chat_message_check_precedes_auth chatCfgW chatEnvOk _ uploadCfgSmall uploadEnvOk _
    (Or.inr rfl) rfl rfl

end RagApp
